import Mathlib

/-!
Shallow embedding of `src/app/train.py`, an AutoGluon + MLflow tabular
training pipeline.  External collaborators (pandas, numpy, autogluon,
mlflow, matplotlib, yaml) are modelled by explicit outcome parameters
(`Except`-valued inputs) or by deterministic stand-ins documented at
each definition; the control flow of `train.py` itself is translated
faithfully, line ranges noted on each definition.
-/

namespace Train

/-- A data record with the four columns produced by the synthetic
generator in `train.py` (`rating`, `review_text`, `category`, `price`). -/
structure Row where
  rating : Int
  review_text : String
  category : Int
  price : ℚ
deriving Repr, DecidableEq, Inhabited

/-- Outcome of `pd.read_csv(data_path)` (train.py line 28): the parsed
rows, a `FileNotFoundError`, or any other exception (permission denied,
parse error, ...). -/
inductive ReadOutcome where
  | ok (rows : List Row)
  | fileNotFound
  | otherError (msg : String)
deriving Repr, DecidableEq

/-- The synthetic batch built inside `load_or_create_data` (train.py
lines 31-37 and 41-46): `min_samples` rows whose random draws
(`np.random.randint(1, 6)`, `np.random.randint(0, 2)`,
`np.random.uniform(10, 1000)`) are supplied by the generator `gen`
(first component the rating, second the category, third the price), and
whose review text is the f-string `"Review {i}"`. -/
def syntheticData (gen : Nat → Int × Int × ℚ) (min_samples : Nat) : List Row :=
  (List.range min_samples).map fun i =>
    { rating := (gen i).1
      review_text := "Review " ++ toString i
      category := (gen i).2.1
      price := (gen i).2.2 }

/-- Embeds `load_or_create_data` (train.py lines 25-47).  `pd.read_csv`
is abstracted by its `ReadOutcome`.  Only `FileNotFoundError` is caught
(triggering full synthesis); when the file loads and is short, a batch
of `min_samples` synthetic rows is concatenated after the real rows
(`pd.concat([data, synthetic_data], ignore_index=True)`); any other
exception propagates to the caller. -/
def load_or_create_data (read : ReadOutcome) (gen : Nat → Int × Int × ℚ)
    (min_samples : Nat := 100) : Except String (List Row) :=
  match read with
  | .ok data =>
      if data.length < min_samples then
        .ok (data ++ syntheticData gen min_samples)
      else
        .ok data
  | .fileNotFound => .ok (syntheticData gen min_samples)
  | .otherError msg => .error msg

/-- A concrete 30-row "real" dataset standing for a short input file. -/
def realRows30 : List Row :=
  (List.range 30).map fun i =>
    { rating := 5, review_text := "real " ++ toString i, category := 1, price := 10 }

/-- A concrete deterministic stand-in for the numpy random draws. -/
def constGen : Nat → Int × Int × ℚ := fun _ => (3, 0, 50)

theorem syntheticData_length (gen : Nat → Int × Int × ℚ) (m : Nat) :
    (syntheticData gen m).length = m := by
  simp [syntheticData]

/-! ### Configuration loading and CLI overrides (train.py lines 97-124) -/

/-- The mapping parsed from `config.yaml`, with its two recognized keys;
a missing key is `none` (`dict.get` returns `None`). -/
structure Config where
  label : Option String
  time_limit : Option Int
deriving Repr, DecidableEq

/-- The hard-coded fallback configuration of train.py line 119:
`{"label": "rating", "time_limit": 300}`. -/
def defaultConfig : Config := { label := some "rating", time_limit := some 300 }

/-- Embeds the config-loading `try/except` of train.py lines 114-119.
The input is the outcome of `open(config_path)` + `yaml.safe_load(f)`:
an exception, or a parsed value — `none` when the YAML document is
empty/null (Python `None`), `some cfg` when it is a mapping.  Any
exception is replaced by `defaultConfig`; a successfully parsed value is
kept as-is, even when it is `None`. -/
def resolveConfig (parse : Except String (Option Config)) : Option Config :=
  match parse with
  | .error _ => some defaultConfig
  | .ok m => m

/-- `config.get(key)` on the resolved config object: when `config` is
Python `None` this raises `AttributeError` (modelled as `.error`);
otherwise it returns the key's value or `None`. -/
def configGet (c : Option Config) (key : Config → Option α) : Except String (Option α) :=
  match c with
  | none => .error "AttributeError: NoneType object has no attribute get"
  | some cfg => .ok (key cfg)

/-- `label = args.label or config.get("label")` (train.py line 121).
Python `or`: a truthy left operand (a non-empty string) short-circuits,
so `config.get` is not evaluated; `None` or `""` falls through to the
right operand. -/
def resolveLabel (cliLabel : Option String) (c : Option Config) :
    Except String (Option String) :=
  match cliLabel with
  | some s => if s = "" then configGet c Config.label else .ok (some s)
  | none => configGet c Config.label

/-- `time_limit = args.time_limit or config.get("time_limit")` (train.py
line 122).  Python `or`: a truthy left operand (a non-zero integer)
short-circuits; `None` or `0` falls through to the right operand. -/
def resolveTimeLimit (cliTime : Option Int) (c : Option Config) :
    Except String (Option Int) :=
  match cliTime with
  | some v => if v = 0 then configGet c Config.time_limit else .ok (some v)
  | none => configGet c Config.time_limit

/-! ### Visualizations (train.py lines 49-79) -/

/-- Embeds `create_visualizations` (train.py lines 49-79).  The body of
each of the two `try` blocks is abstracted by its outcome:
`featureImportanceBlock` is `predictor.feature_importance(test_data)` +
bar plot + `plt.savefig` (yielding the saved filepath on success),
`distPlotBlock` is `sns.histplot(predictions)` + `plt.savefig`.  Each
block catches every exception (`except Exception`) and merely prints a
warning, so a failing block contributes no entry to the returned
`plots` mapping and the function itself never raises. -/
def create_visualizations (featureImportanceBlock : Except String String)
    (distPlotBlock : Except String String) : List (String × String) :=
  let plots : List (String × String) := []
  let plots := match featureImportanceBlock with
    | .ok fp => plots ++ [("feature_importance", fp)]
    | .error _ => plots
  let plots := match distPlotBlock with
    | .ok fp => plots ++ [("prediction_distribution", fp)]
    | .error _ => plots
  plots

/-! ### Artifact files (train.py lines 183-186) -/

/-- The keys of `artifacts_map`, in insertion order (train.py
lines 176-180). -/
def artifactNames : List String :=
  ["leaderboard.csv", "predictions.csv", "model_summary.json"]

/-- Embeds the artifact-writing loop of train.py lines 183-186:
`for name, content in artifacts_map.items(): open(filepath,'w').write(content)`.
`write` is the outcome of opening-and-writing one named file.  The loop
body has no `try/except`, so the first raising write aborts the loop and
the exception propagates.  Returns the list of files actually attempted
together with the loop's outcome. -/
def writeArtifacts (write : String → Except String Unit) :
    List String → List String × Except String Unit
  | [] => ([], Except.ok ())
  | n :: rest =>
    match write n with
    | .ok _ =>
        let r := writeArtifacts write rest
        (n :: r.1, r.2)
    | .error e => ([n], .error e)

/-! ### Leaderboard metrics (train.py lines 160-164) -/

/-- `leaderboard["score_val"].max()` for the non-empty leaderboard a
successful fit returns (pandas max over the column). -/
def best_score : List ℚ → ℚ
  | [] => 0
  | x :: xs => xs.foldl max x

/-- `leaderboard["score_val"].mean()` (pandas mean over the column). -/
def avg_score (scores : List ℚ) : ℚ := scores.sum / scores.length

theorem foldl_max_le_iff (xs : List ℚ) (a c : ℚ) :
    xs.foldl max a ≤ c ↔ a ≤ c ∧ ∀ x ∈ xs, x ≤ c := by
  induction xs generalizing a with
  | nil => simp
  | cons y ys ih =>
      simp only [List.foldl_cons, ih, max_le_iff, List.mem_cons]
      constructor
      · rintro ⟨⟨ha, hy⟩, h⟩
        exact ⟨ha, fun x hx => hx.elim (fun h1 => h1 ▸ hy) (h x)⟩
      · rintro ⟨ha, h⟩
        exact ⟨⟨ha, h y (Or.inl rfl)⟩, fun x hx => h x (Or.inr hx)⟩

theorem le_best_score (xs : List ℚ) (a : ℚ) (x : ℚ) (hx : x ∈ a :: xs) :
    x ≤ xs.foldl max a := by
  have h := foldl_max_le_iff xs a (xs.foldl max a) |>.mp le_rfl
  rcases List.mem_cons.mp hx with h1 | h1
  · exact h1 ▸ h.1
  · exact h.2 x h1

/-! ### Train/test split (train.py lines 138-139)

`data.sample(frac=0.8, random_state=42)` draws `round(frac * len(data))`
distinct row positions without replacement, deterministically from the
seed; `data.drop(train_data.index)` keeps the remaining rows in their
original order.  The concrete seeded permutation below (a linear
congruential generator driving a selection shuffle) stands in for
numpy's seeded Mersenne Twister; every property asserted about the
split is independent of which seeded permutation is used. -/

/-- One step of a 31-bit linear congruential generator — the
deterministic stand-in for numpy's seeded random source. -/
def lcg (s : Nat) : Nat := (s * 1103515245 + 12345) % 2147483648

/-- Fuel-indexed selection shuffle: at each step the state picks one of
the remaining elements and removes it.  Called with `fuel = l.length`
it produces a permutation of `l`. -/
def shuffleAux : Nat → Nat → List Nat → List Nat
  | 0, _, _ => []
  | _ + 1, _, [] => []
  | fuel + 1, s, a :: as =>
    (a :: as).getD (s % (a :: as).length) 0 ::
      shuffleAux fuel (lcg s) ((a :: as).eraseIdx (s % (a :: as).length))

/-- Deterministic seeded permutation of a list of row positions. -/
def shuffle (s : Nat) (l : List Nat) : List Nat := shuffleAux l.length s l

/-- `n = round(frac * axis_length)`, the sample size pandas computes.
(Python `round` is round-half-to-even; for the fraction 4/5 used by
train.py the argument is never a half-integer, so round-half-up
coincides with it.) -/
def sampleSize (frac : ℚ) (n : Nat) : Nat := (round (frac * n)).toNat

/-- `rows.sample(frac, random_state)` with `replace=False` (pandas
`DataFrame.sample`): a negative `frac` raises `ValueError`, `frac > 1`
without replacement raises `ValueError`; an empty frame is *not*
rejected (it yields an empty sample).  Returns the selected row
positions (the index labels of the sampled rows). -/
def sample (rows : List α) (frac : ℚ) (random_state : Nat) : Except String (List Nat) :=
  if frac < 0 then
    .error "A negative number of rows requested. Please provide frac a positive value."
  else if 1 < frac then
    .error "Replace has to be set to True when upsampling the population frac greater than 1."
  else
    .ok ((shuffle random_state (List.range rows.length)).take (sampleSize frac rows.length))

/-- Lines 138-139 of train.py:
`train_data = data.sample(frac=0.8, random_state=42)` and
`test_data = data.drop(train_data.index)`.  Rows are identified by
their position (the frame's default RangeIndex); the result is the pair
(train positions in sampled order, test positions in original order). -/
def splitTrainTest (rows : List α) : Except String (List Nat × List Nat) :=
  match sample rows (4/5) 42 with
  | .error e => .error e
  | .ok trainIdx =>
      .ok (trainIdx, (List.range rows.length).filter (fun i => decide (i ∉ trainIdx)))

theorem get_cons_eraseIdx_perm (l : List Nat) (i : Nat) (h : i < l.length) :
    List.Perm (l.get ⟨i, h⟩ :: l.eraseIdx i) l := by
  rw [List.eraseIdx_eq_take_drop_succ]
  calc List.Perm (l.get ⟨i, h⟩ :: (l.take i ++ l.drop (i + 1)))
        (l.take i ++ l.get ⟨i, h⟩ :: l.drop (i + 1)) := List.perm_middle.symm
    _ = l := by
        rw [List.get_eq_getElem, List.getElem_cons_drop l i h, List.take_append_drop]

theorem shuffleAux_perm :
    ∀ (fuel s : Nat) (l : List Nat), l.length = fuel →
      List.Perm (shuffleAux fuel s l) l := by
  intro fuel
  induction fuel with
  | zero =>
      intro s l h
      rw [List.length_eq_zero] at h
      subst h
      exact List.Perm.refl _
  | succ n ih =>
      intro s l h
      match l with
      | [] => simp at h
      | a :: as =>
          have hpos : 0 < (a :: as).length := by simp
          have hi : s % (a :: as).length < (a :: as).length := Nat.mod_lt _ hpos
          have hlen : ((a :: as).eraseIdx (s % (a :: as).length)).length = n := by
            rw [List.length_eraseIdx, if_pos hi]
            omega
          have ihp := ih (lcg s) _ hlen
          have hgetD : (a :: as).getD (s % (a :: as).length) 0
              = (a :: as).get ⟨s % (a :: as).length, hi⟩ := by
            rw [List.getD_eq_getElem _ _ hi, List.get_eq_getElem]
          show List.Perm ((a :: as).getD (s % (a :: as).length) 0 ::
              shuffleAux n (lcg s) ((a :: as).eraseIdx (s % (a :: as).length))) (a :: as)
          rw [hgetD]
          exact (ihp.cons _).trans (get_cons_eraseIdx_perm _ _ hi)

theorem shuffle_perm (s : Nat) (l : List Nat) : List.Perm (shuffle s l) l :=
  shuffleAux_perm l.length s l rfl

/-! ### The tracked run and the orchestrating `main` (train.py lines 97-232) -/

/-- The `score_val` column of the leaderboard a successful
`train_model` call returns. -/
structure TrainOutput where
  score_val : List ℚ
deriving Repr, DecidableEq

/-- Observable state of the MLflow tracked run: whether
`mlflow.start_run()` has been entered, whether the run has been ended,
whether it ended with status FAILED, and the recorded parameters and
metrics (both append-only). -/
structure TrackState where
  runOpened : Bool
  runClosed : Bool
  runFailed : Bool
  params : List (String × String)
  metrics : List (String × ℚ)
deriving Repr, DecidableEq

/-- The state before `main` runs: no run opened, nothing recorded. -/
def initState : TrackState :=
  { runOpened := false, runClosed := false, runFailed := false, params := [], metrics := [] }

/-- `mlflow.log_params` / `mlflow.log_param`: append-only recording. -/
def logParams (s : TrackState) (ps : List (String × String)) : TrackState :=
  { s with params := s.params ++ ps }

/-- `mlflow.log_metrics`: append-only recording. -/
def logMetrics (s : TrackState) (ms : List (String × ℚ)) : TrackState :=
  { s with metrics := s.metrics ++ ms }

/-- Outcomes of the external calls made inside the `with
mlflow.start_run()` block, plus the values `main` interpolates into the
recorded parameters. -/
structure Env where
  train_model : Except String TrainOutput
  featureImportanceBlock : Except String String
  distPlotBlock : Except String String
  writeFile : String → Except String Unit
  logArtifactDirs : Except String Unit
  logArtifactFile : String → Except String Unit
  artifactsListing : List String
  logModelDir : Except String Unit
  modelDirExists : Bool
  label : Option String
  time_limit : Option Int
  train_samples : Nat
  test_samples : Nat
  timestamp : String

/-- Python `str` of an optional string (`None` when absent). -/
def optionStr : Option String → String
  | none => "None"
  | some s => s

/-- Python `str` of an optional integer (`None` when absent). -/
def optionIntStr : Option Int → String
  | none => "None"
  | some v => toString v

/-- Train.py lines 203-216: `mlflow.log_artifacts` on the artifacts and
plots directories inside a `try`; on any exception, a fallback loop
uploads each regular file of the artifacts directory, each upload in
its own `try/except` that only prints.  No exception escapes this step.
Returns the logical artifact paths successfully uploaded. -/
def uploadArtifactDirs (env : Env) : List String :=
  match env.logArtifactDirs with
  | .ok _ => ["artifacts", "plots"]
  | .error _ =>
      env.artifactsListing.filter fun f =>
        match env.logArtifactFile f with
        | .ok _ => true
        | .error _ => false

/-- Train.py lines 219-225: upload of the model directory when it
exists, inside its own `try/except` that only prints a warning.  No
exception escapes; returns whether the upload succeeded. -/
def uploadModelDir (env : Env) : Bool :=
  if env.modelDirExists then
    match env.logModelDir with
    | .ok _ => true
    | .error _ => false
  else false

/-- The body of the `try` inside `with mlflow.start_run()` (train.py
lines 145-227), in source order: `train_model`,
`create_visualizations`, `mlflow.log_params`, `mlflow.log_metrics`,
artifact preparation and the per-file write loop, then the
exception-absorbing uploads.  Returns the state after the recording
calls that executed, together with the body's outcome. -/
def runBodySteps (env : Env) (s : TrackState) : TrackState × Except String Unit :=
  match env.train_model with
  | .error e => (s, .error e)
  | .ok out =>
    let _plots := create_visualizations env.featureImportanceBlock env.distPlotBlock
    let s := logParams s
      [("label", optionStr env.label),
       ("time_limit", optionIntStr env.time_limit),
       ("train_samples", toString env.train_samples),
       ("test_samples", toString env.test_samples),
       ("timestamp", env.timestamp)]
    let s := logMetrics s
      [("best_score", best_score out.score_val),
       ("avg_score", avg_score out.score_val),
       ("model_count", (out.score_val.length : ℚ))]
    match (writeArtifacts env.writeFile artifactNames).2 with
    | .error e => (s, .error e)
    | .ok _ =>
      let _uploaded := uploadArtifactDirs env
      let _model := uploadModelDir env
      (s, .ok ())

/-- The `try/except` of train.py lines 145 and 229-232: on any
exception `e` in the body, `mlflow.log_param("error", str(e))` records
the message and `raise e` re-raises the original exception. -/
def runBody (env : Env) (s : TrackState) : TrackState × Except String Unit :=
  match runBodySteps env s with
  | (s1, .ok _) => (s1, .ok ())
  | (s1, .error e) => (logParams s1 [("error", e)], .error e)

/-- The `with mlflow.start_run() as run:` block (train.py line 141).
MLflow's context manager opens the run on entry and on exit always ends
it — with status FINISHED on normal exit, status FAILED when an
exception passes through, re-raising the exception. -/
def withStartRun (env : Env) (s : TrackState) : TrackState × Except String Unit :=
  match runBody env { s with runOpened := true } with
  | (s1, .ok _) => ({ s1 with runClosed := true, runFailed := false }, .ok ())
  | (s1, .error e) => ({ s1 with runClosed := true, runFailed := true }, .error e)

/-- Train.py lines 113-122: config loading with fallback followed by
the two CLI-override resolutions, in source order (`label` first). -/
def mainConfigPhase (parse : Except String (Option Config))
    (cliLabel : Option String) (cliTime : Option Int) :
    Except String (Option String × Option Int) :=
  let config := resolveConfig parse
  match resolveLabel cliLabel config with
  | .error e => .error e
  | .ok lab =>
    match resolveTimeLimit cliTime config with
    | .error e => .error e
    | .ok tl => .ok (lab, tl)

/-- The orchestrating `main` (train.py lines 97-232): config phase,
then `load_or_create_data` (default `min_samples=100`), then the
train/test split, then the tracked-run block.  Any exception before
`mlflow.start_run()` propagates with the run never opened. -/
def mainPipeline (parse : Except String (Option Config))
    (cliLabel : Option String) (cliTime : Option Int)
    (read : ReadOutcome) (gen : Nat → Int × Int × ℚ)
    (env : Env) (s : TrackState) : TrackState × Except String Unit :=
  match mainConfigPhase parse cliLabel cliTime with
  | .error e => (s, .error e)
  | .ok (lab, tl) =>
    match load_or_create_data read gen with
    | .error e => (s, .error e)
    | .ok data =>
      match splitTrainTest data with
      | .error e => (s, .error e)
      | .ok (trainIdx, testIdx) =>
          let env2 : Env :=
            { env with
              label := lab
              time_limit := tl
              train_samples := trainIdx.length
              test_samples := testIdx.length }
          withStartRun env2 s

/-! ## Supporting lemmas -/

theorem sampleSize_four_fifths_100 : sampleSize (4/5 : ℚ) 100 = 80 := by
  unfold sampleSize
  push_cast
  norm_num [round_eq]
  decide

theorem sampleSize_four_fifths_0 : sampleSize (4/5 : ℚ) 0 = 0 := by
  unfold sampleSize
  push_cast
  norm_num

theorem sample_four_fifths_eq (rows : List α) :
    sample rows (4/5) 42
      = .ok ((shuffle 42 (List.range rows.length)).take (sampleSize (4/5) rows.length)) := by
  rw [sample, if_neg (by norm_num), if_neg (by norm_num)]

theorem splitTrainTest_eq (rows : List α) :
    splitTrainTest rows
      = .ok ((shuffle 42 (List.range rows.length)).take (sampleSize (4/5) rows.length),
          (List.range rows.length).filter
            (fun i => decide (i ∉ (shuffle 42 (List.range rows.length)).take
              (sampleSize (4/5) rows.length)))) := by
  rw [splitTrainTest, sample_four_fifths_eq]

/-! ## Claims -/

/-- C1, counterexample: a readable 30-row dataset padded with
`min_samples = 100` yields 130 rows, not the 100 rows the claim
demands — `load_or_create_data` appends a full batch of `min_samples`
synthetic rows, not just the shortfall. -/
theorem C1_short_file_counterexample :
    (load_or_create_data (.ok realRows30) constGen 100).map List.length = Except.ok 130
    ∧ (load_or_create_data (.ok realRows30) constGen 100).map List.length ≠ Except.ok 100 := by
  have h1 : (load_or_create_data (.ok realRows30) constGen 100).map List.length
      = Except.ok 130 := by rfl
  refine ⟨h1, ?_⟩
  rw [h1]
  intro h
  injection h with h2
  omega

/-- C1, amended: for every readable dataset with fewer than `min_rows`
rows, `load_or_create_data` returns the original rows followed by a
full batch of `min_rows` synthetic rows — `n + min_rows` rows in total
(not exactly `min_rows`) — with every original row present unmodified
and no real row replaced. -/
theorem C1_short_file_pads_full_batch (rows : List Row)
    (gen : Nat → Int × Int × ℚ) (m : Nat) (h : rows.length < m) :
    load_or_create_data (.ok rows) gen m = .ok (rows ++ syntheticData gen m)
    ∧ (rows ++ syntheticData gen m).length = rows.length + m
    ∧ (rows ++ syntheticData gen m).take rows.length = rows := by
  refine ⟨?_, ?_, List.take_left _ _⟩
  · rw [load_or_create_data, if_pos h]
  · rw [List.length_append, syntheticData_length]

/-- C1, witness for the amended theorem at the 30-row input. -/
theorem C1_short_file_pads_full_batch_witness :
    realRows30.length < 100
    ∧ (load_or_create_data (.ok realRows30) constGen 100
        = .ok (realRows30 ++ syntheticData constGen 100)
      ∧ (realRows30 ++ syntheticData constGen 100).length = realRows30.length + 100
      ∧ (realRows30 ++ syntheticData constGen 100).take realRows30.length = realRows30) :=
  ⟨by decide, C1_short_file_pads_full_batch realRows30 constGen 100 (by decide)⟩

/-- C4: `load_or_create_data` synthesizes the entire dataset only on
`FileNotFoundError`; any other read error propagates to the caller
unchanged, and a readable dataset is never replaced — it is always
returned with the original rows intact at the front. -/
theorem C4_only_missing_file_synthesizes :
    (∀ (msg : String) (gen : Nat → Int × Int × ℚ) (m : Nat),
        load_or_create_data (.otherError msg) gen m = .error msg)
    ∧ (∀ (gen : Nat → Int × Int × ℚ) (m : Nat),
        load_or_create_data .fileNotFound gen m = .ok (syntheticData gen m))
    ∧ (∀ (rows : List Row) (gen : Nat → Int × Int × ℚ) (m : Nat),
        ∃ r, load_or_create_data (.ok rows) gen m = .ok r
          ∧ r.take rows.length = rows) := by
  refine ⟨fun _ _ _ => rfl, fun _ _ => rfl, fun rows gen m => ?_⟩
  by_cases h : rows.length < m
  · exact ⟨rows ++ syntheticData gen m,
      by rw [load_or_create_data, if_pos h], List.take_left _ _⟩
  · exact ⟨rows, by rw [load_or_create_data, if_neg h], List.take_length rows⟩

/-- C5, counterexample: the split of train.py lines 138-139 does not
fail on the empty dataset — pandas `sample(frac=0.8)` on an empty frame
draws `round(0.8 * 0) = 0` rows, so the split returns empty train and
test partitions instead of raising. -/
theorem C5_empty_split_counterexample :
    splitTrainTest ([] : List Row) = .ok ([], []) := by
  rw [splitTrainTest_eq]
  simp only [List.length_nil, sampleSize_four_fifths_0]
  rfl

/-- C5, amended: the split operation never raises — the train fraction
is hard-coded to 0.8, the underlying sampler rejects only a negative
fraction or a fraction above one (neither of which 0.8 triggers) and
does not reject an empty dataset, for which the split returns empty
train and test partitions. -/
theorem C5_split_never_fails (α : Type) (rows : List α) :
    (∃ p, splitTrainTest rows = .ok p)
    ∧ (rows = [] → splitTrainTest rows = .ok ([], []))
    ∧ (∀ (frac : ℚ) (seed : Nat),
        (∃ e, sample rows frac seed = .error e) ↔ (frac < 0 ∨ 1 < frac)) := by
  refine ⟨⟨_, splitTrainTest_eq rows⟩, ?_, ?_⟩
  · rintro rfl
    rw [splitTrainTest_eq]
    simp only [List.length_nil, sampleSize_four_fifths_0]
    rfl
  · intro frac seed
    constructor
    · rintro ⟨e, he⟩
      by_contra hc
      push_neg at hc
      rw [sample, if_neg (not_lt.mpr hc.1), if_neg (not_lt.mpr hc.2)] at he
      exact Except.noConfusion he
    · intro hd
      rcases hd with hlt | hgt
      · exact ⟨_, by rw [sample, if_pos hlt]⟩
      · by_cases hneg : frac < 0
        · exact ⟨_, by rw [sample, if_pos hneg]⟩
        · exact ⟨_, by rw [sample, if_neg hneg, if_pos hgt]⟩

/-- C5, witness: the amended theorem applied at the empty dataset and
at a concrete out-of-range fraction. -/
theorem C5_split_never_fails_witness :
    splitTrainTest ([42] : List Nat) = splitTrainTest [42]
    ∧ (∃ p, splitTrainTest ([42] : List Nat) = .ok p)
    ∧ splitTrainTest ([] : List Nat) = .ok ([], [])
    ∧ (∃ e, sample ([] : List Nat) (3/2) 42 = .error e) :=
  ⟨rfl, (C5_split_never_fails Nat [42]).1,
   (C5_split_never_fails Nat []).2.1 rfl,
   ((C5_split_never_fails Nat []).2.2 (3/2) 42).mpr (Or.inr (by norm_num))⟩

/-- A concrete writer whose `leaderboard.csv` write raises. -/
def failingWrite : String → Except String Unit :=
  fun n => if n = "leaderboard.csv" then .error "disk full" else .ok ()

/-- C6, counterexample: when writing `leaderboard.csv` fails, the write
loop of train.py lines 183-186 aborts — `predictions.csv` and
`model_summary.json` are never attempted, contrary to the claim. -/
theorem C6_write_abort_counterexample :
    writeArtifacts failingWrite artifactNames = (["leaderboard.csv"], .error "disk full")
    ∧ "predictions.csv" ∉ (writeArtifacts failingWrite artifactNames).1
    ∧ "model_summary.json" ∉ (writeArtifacts failingWrite artifactNames).1 := by
  refine ⟨rfl, ?_, ?_⟩ <;> decide

/-- C6, amended: the artifact-writing loop has no per-file recovery —
the first failing write stops the loop, the remaining files are not
attempted, and the exception propagates (to the run's `except` handler,
which records it and closes the run as failed). -/
theorem C6_write_failure_aborts_loop (write : String → Except String Unit)
    (pre post : List String) (n e : String)
    (hpre : ∀ m ∈ pre, write m = .ok ())
    (hn : write n = .error e) :
    writeArtifacts write (pre ++ n :: post) = (pre ++ [n], .error e) := by
  induction pre with
  | nil => simp [writeArtifacts, hn]
  | cons a rest ih =>
      have ha : write a = .ok () := hpre a (by simp)
      have ih2 := ih fun m hm => hpre m (by simp [hm])
      simp [writeArtifacts, ha, ih2]

/-- C6, witness for the amended theorem at a concrete failing writer. -/
theorem C6_write_failure_aborts_loop_witness :
    writeArtifacts failingWrite
        (["predictions.csv"] ++ "leaderboard.csv" :: ["model_summary.json"])
      = (["predictions.csv"] ++ ["leaderboard.csv"], .error "disk full") :=
  C6_write_failure_aborts_loop failingWrite ["predictions.csv"] ["model_summary.json"]
    "leaderboard.csv" "disk full"
    (by intro m hm; simp at hm; subst hm; rfl) rfl

/-- C7, counterexample: a user-supplied falsy CLI value does not
override the config — `--time_limit 0` resolves to the config's 300 and
`--label ""` resolves to the config's "rating", because Python `or`
discards falsy left operands. -/
theorem C7_falsy_cli_counterexample :
    resolveTimeLimit (some 0) (some defaultConfig) = .ok (some 300)
    ∧ resolveLabel (some "") (some defaultConfig) = .ok (some "rating")
    ∧ some (300 : Int) ≠ some (0 : Int) := by
  refine ⟨rfl, rfl, by decide⟩

/-- C7, amended: a supplied CLI value overrides the config value
whenever it is truthy (a non-zero integer, a non-empty string); a
supplied `0` or `""` is discarded by Python `or` and the config value
is used instead. -/
theorem C7_truthy_cli_overrides (cfg : Config) :
    (∀ v : Int, v ≠ 0 → resolveTimeLimit (some v) (some cfg) = .ok (some v))
    ∧ (∀ s : String, s ≠ "" → resolveLabel (some s) (some cfg) = .ok (some s))
    ∧ resolveTimeLimit (some 0) (some cfg) = .ok cfg.time_limit
    ∧ resolveLabel (some "") (some cfg) = .ok cfg.label := by
  refine ⟨fun v hv => ?_, fun s hs => ?_, rfl, rfl⟩
  · rw [resolveTimeLimit, if_neg hv]
  · rw [resolveLabel, if_neg hs]

/-- C7, witness for the amended theorem at concrete truthy values. -/
theorem C7_truthy_cli_overrides_witness :
    resolveTimeLimit (some 120) (some defaultConfig) = .ok (some 120)
    ∧ resolveLabel (some "price") (some defaultConfig) = .ok (some "price") :=
  ⟨(C7_truthy_cli_overrides defaultConfig).1 120 (by decide),
   (C7_truthy_cli_overrides defaultConfig).2.1 "price" (by decide)⟩

/-- C2: whenever the body of the tracked-run block raises (in
particular on a training failure), the error message is recorded as the
run parameter `error`, the run ends closed with status FAILED, the
original exception is re-raised to the caller — and no execution of the
block ever leaves the run open. -/
theorem C2_failure_closes_run (env : Env) (s : TrackState) (e : String)
    (h : (runBodySteps env { s with runOpened := true }).2 = .error e) :
    (withStartRun env s).1.runClosed = true
    ∧ (withStartRun env s).1.runFailed = true
    ∧ ("error", e) ∈ (withStartRun env s).1.params
    ∧ (withStartRun env s).2 = .error e
    ∧ (∀ (env2 : Env) (s2 : TrackState), (withStartRun env2 s2).1.runClosed = true) := by
  have hclosed : ∀ (env2 : Env) (s2 : TrackState),
      (withStartRun env2 s2).1.runClosed = true := by
    intro env2 s2
    rw [withStartRun, runBody]
    rcases h2 : runBodySteps env2 { s2 with runOpened := true } with ⟨s1, r⟩
    cases r <;> simp
  rcases hb : runBodySteps env { s with runOpened := true } with ⟨s1, r⟩
  rw [hb] at h
  simp only at h
  subst h
  rw [withStartRun, runBody, hb]
  refine ⟨rfl, rfl, ?_, rfl, hclosed⟩
  simp [logParams]

/-- A concrete environment in which every external call succeeds. -/
def baseEnv : Env :=
  { train_model := .ok { score_val := [1/2, 1/3] }
    featureImportanceBlock := .ok "plots/feature_importance.png"
    distPlotBlock := .ok "plots/prediction_dist.png"
    writeFile := fun _ => .ok ()
    logArtifactDirs := .ok ()
    logArtifactFile := fun _ => .ok ()
    artifactsListing := ["leaderboard.csv", "predictions.csv", "model_summary.json"]
    logModelDir := .ok ()
    modelDirExists := true
    label := some "rating"
    time_limit := some 300
    train_samples := 80
    test_samples := 20
    timestamp := "20261012_000000" }

/-- A concrete environment in which the `train_model` call raises. -/
def trainFailEnv : Env :=
  { baseEnv with train_model := .error "time budget too small" }

/-- C2, witness at a concrete training failure. -/
theorem C2_failure_closes_run_witness :
    (runBodySteps trainFailEnv { initState with runOpened := true }).2
        = .error "time budget too small"
    ∧ ((withStartRun trainFailEnv initState).1.runClosed = true
      ∧ (withStartRun trainFailEnv initState).1.runFailed = true
      ∧ ("error", "time budget too small") ∈ (withStartRun trainFailEnv initState).1.params
      ∧ (withStartRun trainFailEnv initState).2 = .error "time budget too small"
      ∧ (∀ (env2 : Env) (s2 : TrackState), (withStartRun env2 s2).1.runClosed = true)) :=
  ⟨rfl, C2_failure_closes_run trainFailEnv initState "time budget too small" rfl⟩

/-- C3: the train/test split of train.py lines 138-139 is deterministic
(the embedded sampler is a pure function of the data and the fixed seed
42, so splitting twice yields the same partitions), train and test are
disjoint by row identity, their union by row identity is exactly the
set of input row positions, neither side repeats a row — and on a
100-row dataset the split is exactly 80 train rows and 20 test rows. -/
theorem C3_split_partition (α : Type) (rows : List α) :
    splitTrainTest rows = splitTrainTest rows
    ∧ (∃ tr te, splitTrainTest rows = .ok (tr, te)
        ∧ (∀ i, i ∈ tr → i ∉ te)
        ∧ (∀ i, (i ∈ tr ∨ i ∈ te) ↔ i < rows.length)
        ∧ tr.Nodup ∧ te.Nodup)
    ∧ (splitTrainTest (List.range 100)).map (fun p => (p.1.length, p.2.length))
        = Except.ok (80, 20) := by
  refine ⟨rfl, ?_, ?_⟩
  · set n := rows.length with hn
    set tr := (shuffle 42 (List.range n)).take (sampleSize (4/5) n) with htr
    have hsub : tr ⊆ List.range n :=
      fun i hi => (shuffle_perm 42 (List.range n)).subset (List.take_subset _ _ hi)
    refine ⟨tr, (List.range n).filter (fun i => decide (i ∉ tr)),
      splitTrainTest_eq rows, ?_, ?_, ?_, ?_⟩
    · intro i hi hmem
      rcases List.mem_filter.mp hmem with ⟨_, hdec⟩
      exact (of_decide_eq_true hdec) hi
    · intro i
      constructor
      · rintro (hi | hi)
        · exact List.mem_range.mp (hsub hi)
        · exact List.mem_range.mp (List.mem_filter.mp hi).1
      · intro hi
        by_cases hm : i ∈ tr
        · exact Or.inl hm
        · exact Or.inr (List.mem_filter.mpr ⟨List.mem_range.mpr hi, decide_eq_true hm⟩)
    · exact ((shuffle_perm 42 (List.range n)).nodup_iff.mpr
        (List.nodup_range n)).sublist (List.take_sublist _ _)
    · exact (List.nodup_range n).sublist (List.filter_sublist _)
  · rw [splitTrainTest_eq]
    simp only [List.length_range, sampleSize_four_fifths_100]
    rfl

/-- C8: in `create_visualizations` a failing feature-importance block
does not prevent the prediction-distribution plot from being produced
and recorded (and vice versa); with both blocks failing the function
still returns (an empty plots map); and no plot failure ever surfaces
as a pipeline failure — the run body succeeds whatever the two plot
blocks do, provided training and the artifact writes succeed. -/
theorem C8_plot_failures_independent :
    (∀ (e fp : String),
        ("prediction_distribution", fp) ∈ create_visualizations (.error e) (.ok fp))
    ∧ (∀ (e fp : String),
        ("feature_importance", fp) ∈ create_visualizations (.ok fp) (.error e))
    ∧ (∀ (e1 e2 : String), create_visualizations (.error e1) (.error e2) = [])
    ∧ (∀ (out : TrainOutput) (feat dist : Except String String)
        (env : Env) (s : TrackState),
        (runBodySteps
          { env with
            train_model := Except.ok out
            featureImportanceBlock := feat
            distPlotBlock := dist
            writeFile := fun _ => Except.ok () } s).2 = Except.ok ()) := by
  refine ⟨fun e fp => ?_, fun e fp => ?_, fun e1 e2 => rfl, fun out feat dist env s => rfl⟩
  · simp [create_visualizations]
  · simp [create_visualizations]

/-- C9: for every non-empty leaderboard score column, the recorded
metric `best_score` (the column's maximum) is at least the recorded
metric `avg_score` (the column's mean). -/
theorem C9_best_score_ge_avg_score (x : ℚ) (xs : List ℚ) :
    avg_score (x :: xs) ≤ best_score (x :: xs) := by
  have hmem : ∀ y ∈ x :: xs, y ≤ best_score (x :: xs) := fun y hy =>
    le_best_score xs x y hy
  have hsum : (x :: xs).sum ≤ (x :: xs).length • best_score (x :: xs) :=
    List.sum_le_card_nsmul _ _ hmem
  have hc : (0 : ℚ) < ((x :: xs).length : ℚ) := by
    exact_mod_cast Nat.succ_pos xs.length
  rw [avg_score, div_le_iff₀ hc]
  calc (x :: xs).sum ≤ (x :: xs).length • best_score (x :: xs) := hsum
    _ = best_score (x :: xs) * ((x :: xs).length : ℚ) := by
        rw [nsmul_eq_mul, mul_comm]

/-- C10: the default configuration is substituted exactly when opening
or parsing `config.yaml` raises; a successfully parsed empty document
(Python `None`) is kept, so that — with no CLI label supplied — reading
the `label` key raises `AttributeError` and the pipeline aborts with
the run never opened; and a parsed mapping that merely lacks a key
yields `None` for that setting, not the documented default. -/
theorem C10_config_fallback_boundary :
    (∀ e, resolveConfig (.error e) = some defaultConfig)
    ∧ (∀ m, resolveConfig (.ok m) = m)
    ∧ (∀ (cliTime : Option Int) (read : ReadOutcome) (gen : Nat → Int × Int × ℚ)
        (env : Env),
        (mainPipeline (.ok none) none cliTime read gen env initState).1.runOpened = false
        ∧ ∃ e, (mainPipeline (.ok none) none cliTime read gen env initState).2 = .error e)
    ∧ (∀ tl, resolveLabel none (some { label := none, time_limit := tl }) = .ok none) := by
  exact ⟨fun _ => rfl, fun _ => rfl,
    fun _ _ _ _ => ⟨rfl, ⟨_, rfl⟩⟩, fun _ => rfl⟩

/-- C10, witness at a concrete missing config file and a concrete
empty-document parse. -/
theorem C10_config_fallback_boundary_witness :
    resolveConfig (.error "No such file or directory") = some defaultConfig
    ∧ (mainPipeline (.ok none) none none .fileNotFound constGen baseEnv initState).1.runOpened
        = false :=
  ⟨C10_config_fallback_boundary.1 "No such file or directory",
   (C10_config_fallback_boundary.2.2.1 none .fileNotFound constGen baseEnv).1⟩

/-- C3, witness: the partition facts at a concrete 100-row dataset. -/
theorem C3_split_partition_witness :
    (∃ tr te, splitTrainTest (List.range 100) = .ok (tr, te)
        ∧ (∀ i, i ∈ tr → i ∉ te)
        ∧ (∀ i, (i ∈ tr ∨ i ∈ te) ↔ i < (List.range 100).length)
        ∧ tr.Nodup ∧ te.Nodup)
    ∧ (splitTrainTest (List.range 100)).map (fun p => (p.1.length, p.2.length))
        = Except.ok (80, 20) :=
  ⟨(C3_split_partition Nat (List.range 100)).2.1,
   (C3_split_partition Nat (List.range 100)).2.2⟩

/-- C4, witness at a concrete permission error and a concrete missing
file. -/
theorem C4_only_missing_file_synthesizes_witness :
    load_or_create_data (.otherError "PermissionError") constGen 100
      = .error "PermissionError"
    ∧ load_or_create_data .fileNotFound constGen 100 = .ok (syntheticData constGen 100) :=
  ⟨C4_only_missing_file_synthesizes.1 "PermissionError" constGen 100,
   C4_only_missing_file_synthesizes.2.1 constGen 100⟩

/-- C8, witness at a concrete failing feature-importance block. -/
theorem C8_plot_failures_independent_witness :
    ("prediction_distribution", "plots/prediction_dist.png")
      ∈ create_visualizations (.error "feature importance unsupported")
          (.ok "plots/prediction_dist.png")
    ∧ (runBodySteps
        { baseEnv with
          train_model := Except.ok { score_val := [1/2] }
          featureImportanceBlock := Except.error "feature importance unsupported"
          distPlotBlock := Except.ok "plots/prediction_dist.png"
          writeFile := fun _ => Except.ok () } initState).2 = Except.ok () :=
  ⟨C8_plot_failures_independent.1 "feature importance unsupported"
      "plots/prediction_dist.png",
   C8_plot_failures_independent.2.2.2 { score_val := [1/2] }
      (Except.error "feature importance unsupported")
      (Except.ok "plots/prediction_dist.png") baseEnv initState⟩

/-- C9, witness at a concrete two-model leaderboard. -/
theorem C9_best_score_ge_avg_score_witness :
    avg_score [3, 1] ≤ best_score [3, 1] :=
  C9_best_score_ge_avg_score 3 [1]

end Train
